import Mathlib

/-!
Shallow embedding of the cart / order / payment / promotion / wallet core of
the supermarketpro backend, translated from the JavaScript sources
(controllers/order.controller.js, controllers/payment.controller.js,
controllers/setting.controller.js cart section, the promotion controller,
models/wallet.model.js, the order schema pre-save hook and the cart schema
pre-save hook).  Monetary values are modelled as exact rationals; JavaScript
`x || d` defaulting on numbers is modelled by `jsOr` (values absent or zero
fall back to the default), and `x || 0` on an optional number by
`Option.getD _ 0`.  Database lookups are modelled as explicit `Option` / list
parameters, and each request handler is a pure function returning
`Except String result`, where an error models a rejected request that leaves
all stored state unchanged.
-/

/-- JavaScript `x || d` for an optional numeric field: both `undefined` and
`0` are falsy and fall back to the default. -/
def jsOr (o : Option Rat) (d : Rat) : Rat :=
  match o with
  | none => d
  | some v => if v = 0 then d else v

/-- Order fulfillment status enum of the order schema. -/
inductive OrderStatus
  | pending
  | confirmed
  | processing
  | ready_for_pickup
  | out_for_delivery
  | delivered
  | completed
  | cancelled
  | refunded
  | returned
  | failed
deriving DecidableEq, Repr

/-- Payment-status enum of the order schema (`paymentStatus` field). -/
inductive OrderPayStatus
  | pending
  | authorized
  | paid
  | partially_paid
  | failed
  | refunded
  | partially_refunded
deriving DecidableEq, Repr

/-- Status enum of the payment schema. -/
inductive PaymentStatus
  | pending
  | processing
  | completed
  | failed
  | refunded
  | partially_refunded
deriving DecidableEq, Repr

/-- Promotion `discountType` values the controllers branch on (the schema
enum lists the first four; the controllers additionally test for
`free_shipping`). -/
inductive DiscountType
  | percentage
  | fixed_amount
  | free_item
  | buy_x_get_y
  | free_shipping
deriving DecidableEq, Repr

/-- Wallet transaction types: the schema enum (credit, debit, refund,
adjustment, bonus, withdrawal) plus the two values the wallet controller
actually passes (`deposit` in addFunds, `transfer` in transferFunds). -/
inductive TxnType
  | credit
  | debit
  | refund
  | adjustment
  | bonus
  | withdrawal
  | deposit
  | transfer
deriving DecidableEq, Repr

/-- User roles relevant to the embedded handlers. -/
inductive Role
  | admin
  | vendor
  | staff
  | customer
  | delivery
deriving DecidableEq, Repr

/-- One entry of `req.user.shops`: a shop id plus whether the role there is
`owner` (otherwise `staff`). -/
structure UserShop where
  shop : Nat
  owner : Bool
deriving DecidableEq, Repr

/-- The authenticated request user (`req.user`). -/
structure UserCtx where
  id : Nat
  role : Role
  shops : List UserShop
deriving DecidableEq, Repr

/-- Shop document fields used by the embedded handlers.  `commissionRate`
is optional because the shop schema does not declare the field, so reads of
`shop.commissionRate` can yield `undefined`. -/
structure ShopDoc where
  owner : Nat
  staff : List Nat
  commissionRate : Option Rat
deriving DecidableEq, Repr

/- ===== createOrder (order.controller.js, multi-shop version) ===== -/

/-- One item of a shop order in the checkout request body. -/
structure ReqItem where
  productId : Nat
  quantity : Rat
  price : Rat
deriving DecidableEq, Repr

/-- One `shopOrders` entry of the checkout request body. -/
structure ReqShopOrder where
  shop : Nat
  items : List ReqItem
  tax : Option Rat
  deliveryFee : Option Rat
  discount : Option Rat
deriving DecidableEq, Repr

/-- The checkout request body (`shopOrders` plus the top-level fee fields
that `createOrder` stores on each processed shop order). -/
structure CreateOrderReq where
  shopOrders : List ReqShopOrder
  tax : Option Rat
  deliveryFee : Option Rat
  discount : Option Rat
deriving DecidableEq, Repr

/-- A processed line item as built by `createOrder`. -/
structure ProcessedItem where
  product : Nat
  shop : Nat
  quantity : Rat
  price : Rat
  totalPrice : Rat
deriving DecidableEq, Repr

/-- A processed shop order embedded in the created order document. -/
structure ProcessedShopOrder where
  shop : Nat
  items : List ProcessedItem
  subtotal : Rat
  tax : Rat
  deliveryFee : Rat
  discount : Rat
  total : Rat
deriving DecidableEq, Repr

/-- The order document `createOrder` passes to `Order.create`. -/
structure OrderDoc where
  customer : Nat
  shopOrders : List ProcessedShopOrder
  grandTotal : Rat
deriving DecidableEq, Repr

/-- Processing of one `shopOrders` entry inside `createOrder`: the total is
computed from the entry-level `tax`/`deliveryFee`/`discount`, while the
stored fields come from the top-level request fields. -/
def processShopOrder (req : CreateOrderReq) (so : ReqShopOrder) : ProcessedShopOrder :=
  let subtotal := (so.items.map (fun i => i.price * i.quantity)).sum
  let total := subtotal + (so.tax.getD 0) + (so.deliveryFee.getD 0) - (so.discount.getD 0)
  { shop := so.shop
    items := so.items.map (fun i =>
      { product := i.productId
        shop := so.shop
        quantity := i.quantity
        price := i.price
        totalPrice := i.price * i.quantity })
    subtotal := subtotal
    tax := req.tax.getD 0
    deliveryFee := req.deliveryFee.getD 0
    discount := req.discount.getD 0
    total := total }

/-- `createOrder` from order.controller.js (multi-shop version): validates
that `shopOrders` is a non-empty list, processes every entry, and calls
`Order.create` exactly once; the returned list holds the order documents
created by the request. -/
def createOrder (customer : Nat) (req : CreateOrderReq) : Except String (List OrderDoc) :=
  if req.shopOrders.isEmpty then
    .error "Please provide at least one shop order"
  else
    let processed := req.shopOrders.map (processShopOrder req)
    let grandTotal := (processed.map (fun so => so.total)).sum
    .ok [{ customer := customer, shopOrders := processed, grandTotal := grandTotal }]

/-- Shops named by a checkout request, deduplicated keeping first
occurrences (the distinct vendors of the cart). -/
def firstDedupAux : List Nat → List Nat → List Nat
  | [], _ => []
  | x :: xs, seen =>
      if x ∈ seen then firstDedupAux xs seen else x :: firstDedupAux xs (x :: seen)

/-- Deduplicate a list of ids keeping the first occurrence of each. -/
def firstDedup (l : List Nat) : List Nat := firstDedupAux l []

/- ===== updateShopOrderStatus (order.controller.js) ===== -/

/-- One `shopOrders` sub-record of a stored multi-shop order, as used by
`updateShopOrderStatus`. -/
structure ShopOrderRec where
  shop : Nat
  status : OrderStatus
deriving DecidableEq, Repr

/-- A stored multi-shop order. -/
structure MultiOrder where
  shopOrders : List ShopOrderRec
deriving DecidableEq, Repr

/-- Update the first element of a list satisfying a predicate. -/
def updateFirst (p : ShopOrderRec → Bool) (f : ShopOrderRec → ShopOrderRec) :
    List ShopOrderRec → List ShopOrderRec
  | [] => []
  | x :: xs => if p x then f x :: xs else x :: updateFirst p f xs

/-- `updateShopOrderStatus` from order.controller.js: finds the shop order
sub-record, checks that the user is an admin, the shop owner or shop staff,
then assigns the requested status unconditionally and saves.  There is no
transition validation of any kind. -/
def updateShopOrderStatus (user : UserCtx) (shop : ShopDoc) (order : MultiOrder)
    (shopId : Nat) (status : OrderStatus) : Except String MultiOrder :=
  if (order.shopOrders.find? (fun so => so.shop = shopId)).isNone then
    .error "Shop order not found in order"
  else if ¬(user.role = Role.admin ∨ shop.owner = user.id ∨ user.id ∈ shop.staff) then
    .error "Not authorized to update this order"
  else
    .ok { order with
          shopOrders := updateFirst (fun so => so.shop = shopId)
            (fun so => { so with status := status }) order.shopOrders }

/- ===== Single-shop order document (models/order.model.js schema) ===== -/

/-- A stored order document with the monetary and settlement fields of the
order schema.  `statusHistory` records the pushed status values and
`discountDetails` the pushed discount amounts. -/
structure Order1 where
  shop : Nat
  customer : Nat
  subtotal : Rat
  tax : Rat
  deliveryFee : Rat
  packagingFee : Rat
  serviceFee : Rat
  discount : Rat
  total : Rat
  status : OrderStatus
  paymentStatus : OrderPayStatus
  statusHistory : List OrderStatus
  discountDetails : List Rat
  commissionAmount : Rat
  shopEarnings : Rat
  deliveryEarnings : Rat
  platformEarnings : Rat
deriving DecidableEq, Repr

/-- The monetary invariant the specification states for all orders. -/
def orderTotalInvariant (o : Order1) : Prop :=
  o.total = o.subtotal + o.tax + o.deliveryFee + o.packagingFee + o.serviceFee - o.discount

instance (o : Order1) : Decidable (orderTotalInvariant o) := by
  unfold orderTotalInvariant; infer_instance

/- ===== Promotion document (models/promotion.model.js) ===== -/

/-- A promotion document with the fields the coupon/promotion handlers
read.  `minimumPurchase`, `maximumDiscount` and `usageLimitTotal` default
to 0, which the code treats as unset via JavaScript truthiness. -/
structure Promotion where
  code : String
  isActive : Bool
  startDate : Int
  endDate : Int
  isGlobal : Bool
  shop : Option Nat
  discountType : DiscountType
  discountValue : Rat
  minimumPurchase : Rat
  maximumDiscount : Rat
  usageLimitTotal : Nat
  currentUsage : Nat
  applicableProducts : List Nat
deriving DecidableEq, Repr

/- ===== applyPromotion (promotion controller) ===== -/

/-- Authorization check shared by the payment/promotion handlers for an
order-scoped action: customers must own the order; vendors and staff must
have the order shop among their shops (any role). -/
def orderActionAllowed (user : UserCtx) (orderCustomer orderShop : Nat) : Bool :=
  match user.role with
  | Role.customer => orderCustomer = user.id
  | Role.vendor => user.shops.any (fun s => s.shop = orderShop)
  | Role.staff => user.shops.any (fun s => s.shop = orderShop)
  | _ => true

/-- `applyPromotion` from the promotion controller: after authorization and
validity checks it computes the discount, overwrites the order discount,
recomputes the order total as `subtotal + tax + deliveryFee - discount`
(omitting `packagingFee` and `serviceFee`), pushes a discount detail, and
increments the promotion usage counter. -/
def applyPromotion (user : UserCtx) (order : Order1) (promo : Option Promotion)
    (now : Int) : Except String (Order1 × Promotion) :=
  if ¬orderActionAllowed user order.customer order.shop then
    .error "Not authorized to apply promotion to this order"
  else
    match promo with
    | none => .error "Promotion not found"
    | some p =>
      if ¬p.isActive ∨ p.startDate > now ∨ p.endDate < now then
        .error "Promotion is not active or has expired"
      else if ¬p.isGlobal ∧ (∃ s, p.shop = some s ∧ s ≠ order.shop) then
        .error "This promotion is not applicable to this shop"
      else if p.minimumPurchase ≠ 0 ∧ order.subtotal < p.minimumPurchase then
        .error "Minimum purchase required to use this promotion"
      else if p.usageLimitTotal > 0 ∧ p.currentUsage ≥ p.usageLimitTotal then
        .error "This promotion has reached its usage limit"
      else
        let raw : Rat :=
          match p.discountType with
          | DiscountType.percentage => order.subtotal * p.discountValue / 100
          | DiscountType.fixed_amount => p.discountValue
          | DiscountType.free_shipping => order.deliveryFee
          | _ => 0
        let discountAmount := if p.maximumDiscount ≠ 0 ∧ raw > p.maximumDiscount then
          p.maximumDiscount else raw
        let order2 := { order with
          discount := discountAmount
          total := order.subtotal + order.tax + order.deliveryFee - discountAmount
          discountDetails := order.discountDetails ++ [discountAmount] }
        .ok (order2, { p with currentUsage := p.currentUsage + 1 })

instance (p : Promotion) (o : Order1) :
    Decidable (¬p.isGlobal ∧ (∃ s, p.shop = some s ∧ s ≠ o.shop)) := by
  infer_instance

/- ===== orderSchema.pre save hook (commission split) ===== -/

/-- The order schema pre-save hook, for a save in which the guard
`isNew || isModified(total) || isModified(commissionAmount)` holds (in
particular at creation): when `commissionAmount` is unset (0) and the shop
lookup succeeds it computes `total * (shop.commissionRate || 10) / 100`,
then always recomputes `shopEarnings = total - commissionAmount -
deliveryEarnings` and `platformEarnings = commissionAmount`. -/
def orderPreSave (shopLookup : Option ShopDoc) (o : Order1) : Order1 :=
  let commission : Rat :=
    if o.commissionAmount = 0 then
      match shopLookup with
      | some s => o.total * jsOr s.commissionRate 10 / 100
      | none => o.commissionAmount
    else o.commissionAmount
  { o with
    commissionAmount := commission
    shopEarnings := o.total - commission - o.deliveryEarnings
    platformEarnings := commission }

/- ===== Payment documents and handlers (payment.controller.js) ===== -/

/-- One refund sub-record of a payment document (appended with status
`pending`). -/
structure RefundRec where
  amount : Rat
  reason : String
deriving DecidableEq, Repr

/-- A payment document with the fields the embedded handlers use. -/
structure PaymentDoc where
  order : Nat
  customer : Nat
  shop : Nat
  amount : Rat
  status : PaymentStatus
  platformFee : Rat
  shopAmount : Rat
  refunds : List RefundRec
deriving DecidableEq, Repr

/-- The commission rate `createPayment` uses: `shop ? shop.commissionRate :
10`.  A shop whose `commissionRate` field is absent yields `none`,
modelling the NaN that `undefined` arithmetic produces in the source. -/
def paymentRate (shopLookup : Option ShopDoc) : Option Rat :=
  match shopLookup with
  | some s => s.commissionRate
  | none => some 10

/-- The payment document built by `createPayment` (payment.controller.js):
`platformFee = order.total * commissionRate / 100` and `shopAmount =
order.total - platformFee`; `none` models the NaN-poisoned document
produced when the shop exists but has no `commissionRate`. -/
def createPayment (shopLookup : Option ShopDoc) (o : Order1) : Option PaymentDoc :=
  (paymentRate shopLookup).map (fun rate =>
    let platformFee := o.total * rate / 100
    { order := 0
      customer := o.customer
      shop := o.shop
      amount := o.total
      status := PaymentStatus.pending
      platformFee := platformFee
      shopAmount := o.total - platformFee
      refunds := [] })

/-- `refundPayment` from payment.controller.js: only `completed` payments
are accepted; vendors must own the payment shop; the amount must satisfy
`0 < amount <= payment.amount`.  A full refund (`amount == payment.amount`)
sets the payment to `refunded` and drives the order status and payment
status to `refunded`; a partial refund sets the payment and the order
payment status to `partially_refunded` and pushes a history entry carrying
the current (unchanged) order status. -/
def refundPayment (user : UserCtx) (p : PaymentDoc) (o : Order1)
    (amount : Option Rat) (reason : String) : Except String (PaymentDoc × Order1) :=
  if p.status ≠ PaymentStatus.completed then
    .error "Only completed payments can be refunded"
  else if user.role = Role.vendor ∧
      ¬(user.shops.any (fun s => s.shop = p.shop ∧ s.owner)) then
    .error "Not authorized to refund this payment"
  else
    match amount with
    | none => .error "Invalid refund amount"
    | some a =>
      if a ≤ 0 ∨ a > p.amount then
        .error "Invalid refund amount"
      else
        let p2 := { p with
          refunds := p.refunds ++ [{ amount := a, reason := reason }]
          status := if a = p.amount then PaymentStatus.refunded
            else PaymentStatus.partially_refunded }
        let o2 := if a = p.amount then
            { o with
              paymentStatus := OrderPayStatus.refunded
              status := OrderStatus.refunded
              statusHistory := o.statusHistory ++ [OrderStatus.refunded] }
          else
            { o with
              paymentStatus := OrderPayStatus.partially_refunded
              statusHistory := o.statusHistory ++ [o.status] }
        .ok (p2, o2)

/- ===== Wallet (models/wallet.model.js, wallet controller) ===== -/

/-- One wallet ledger entry as built by `addTransaction`: the `amount` and
`description` fields are stored exactly as destructured from the argument
object (`description` is `none` when the caller does not pass one). -/
structure Txn where
  ty : TxnType
  amount : Rat
  description : Option String
  balanceAfter : Rat
deriving DecidableEq, Repr

/-- A wallet document: balance plus the append-only transaction ledger. -/
structure Wallet where
  balance : Rat
  transactions : List Txn
deriving DecidableEq, Repr

/-- Transaction types admitted by the wallet schema enum (credit, debit,
refund, adjustment, bonus, withdrawal); `deposit` and `transfer`, which
the wallet controller passes, are not among them. -/
def txnTypeInEnum (ty : TxnType) : Bool :=
  match ty with
  | TxnType.credit => true
  | TxnType.debit => true
  | TxnType.refund => true
  | TxnType.adjustment => true
  | TxnType.bonus => true
  | TxnType.withdrawal => true
  | _ => false

/-- Mongoose validation performed by `this.save()` on a wallet document:
the balance floor (`min: 0` on `balance`) and, for every ledger entry, the
schema-required `description` and the transaction-type enum.  A document
failing validation is rejected with a ValidationError and nothing is
persisted. -/
def walletDocValid (w : Wallet) : Prop :=
  0 ≤ w.balance ∧
    ∀ t ∈ w.transactions, t.description.isSome ∧ txnTypeInEnum t.ty

instance (w : Wallet) : Decidable (walletDocValid w) := by
  unfold walletDocValid
  infer_instance

/-- The tail of `addTransaction` after the new balance is computed: build
the transaction, push it, update the balance and await `this.save()`,
whose schema validation (`walletDocValid`) rejects the whole update -
persisting nothing - when the balance would fall below 0, the
`description` is missing, or the type is outside the schema enum. -/
def saveTxn (w : Wallet) (ty : TxnType) (amount : Rat)
    (description : Option String) (nb : Rat) : Except String (Wallet × Txn) :=
  let t : Txn := { ty := ty, amount := amount, description := description,
                   balanceAfter := nb }
  let w2 : Wallet := { balance := nb, transactions := w.transactions ++ [t] }
  if walletDocValid w2 then .ok (w2, t) else .error "ValidationError"

/-- `walletSchema.methods.addTransaction`: credit/refund/bonus add the
amount, debit/withdrawal subtract it after an insufficient-balance guard,
adjustment adds with a negative-result guard, and any other type leaves the
balance unchanged; the guards throw before the ledger is touched, and
every non-throwing branch continues into the push-and-save tail
(`saveTxn`). -/
def addTransaction (w : Wallet) (ty : TxnType) (amount : Rat)
    (description : Option String) : Except String (Wallet × Txn) :=
  if ty = TxnType.credit ∨ ty = TxnType.refund ∨ ty = TxnType.bonus then
    saveTxn w ty amount description (w.balance + amount)
  else if ty = TxnType.debit ∨ ty = TxnType.withdrawal then
    if amount > w.balance then .error "Insufficient balance"
    else saveTxn w ty amount description (w.balance - amount)
  else if ty = TxnType.adjustment then
    if w.balance + amount < 0 then
      .error "Adjustment would result in negative balance"
    else saveTxn w ty amount description (w.balance + amount)
  else
    saveTxn w ty amount description w.balance

/-- `withdrawFunds` from the wallet controller: validates the amount, the
wallet, the balance, the method and the account details, then calls
`wallet.addTransaction` with type `withdrawal`, the NEGATED amount
(`amount: -amount`) and NO `description` (the controller passes `notes`,
which `addTransaction` does not read).  The `pendingBalance` update that
follows targets a field the wallet schema does not declare and is
dropped. -/
def withdrawFunds (walletLookup : Option Wallet) (amount : Option Rat)
    (method : Option String) (accountDetails : Option String) :
    Except String Wallet :=
  match amount with
  | none => .error "Amount must be greater than 0"
  | some a =>
    if a ≤ 0 then .error "Amount must be greater than 0"
    else
      match walletLookup with
      | none => .error "Wallet not found"
      | some w =>
        if w.balance < a then .error "Insufficient balance"
        else if method.isNone then .error "Withdrawal method is required"
        else if accountDetails.isNone then .error "Account details are required"
        else (addTransaction w TxnType.withdrawal (-a) none).map (fun r => r.1)

/-- The signed contribution of a ledger entry to the balance, as
`addTransaction` applies it: credit-like entries (credit, refund, bonus,
adjustment) add their amount, debit-like entries (debit, withdrawal)
subtract it, and any other type contributes nothing. -/
def signedAmount (t : Txn) : Rat :=
  if t.ty = TxnType.credit ∨ t.ty = TxnType.refund ∨ t.ty = TxnType.bonus
      ∨ t.ty = TxnType.adjustment then t.amount
  else if t.ty = TxnType.debit ∨ t.ty = TxnType.withdrawal then -t.amount
  else 0

/-- The running sum of the signed amounts of a ledger. -/
def ledgerSum (l : List Txn) : Rat := (l.map signedAmount).sum

/- ===== Coupon validation (promotion controller validateCoupon) ===== -/

/-- A product line of the `validateCoupon` request body. -/
structure CartProduct where
  productId : Nat
  price : Rat
  quantity : Rat
deriving DecidableEq, Repr

/-- The `Promotion.findOne` query of `validateCoupon` and `applyCoupon`:
code match, active flag, and validity window containing now. -/
def findActivePromo (promos : List Promotion) (code : String) (now : Int) :
    Option Promotion :=
  promos.find? (fun p =>
    p.code = code ∧ p.isActive ∧ p.startDate ≤ now ∧ now ≤ p.endDate)

/-- `validateCoupon` from the promotion controller: resolves a coupon code
against a cart total and product list and returns the pair
`(discountAmount, applicableAmount)`.  For `free_shipping` the discount is
literally 0 (the source comments it is handled separately in checkout). -/
def validateCoupon (promos : List Promotion) (code : String)
    (shopId : Option Nat) (cartTotal : Rat) (products : List CartProduct)
    (now : Int) : Except String (Rat × Rat) :=
  match findActivePromo promos code now with
  | none => .error "Invalid or expired coupon code"
  | some p =>
    if ¬p.isGlobal ∧ (∃ s, p.shop = some s ∧ shopId ≠ some s) then
      .error "This coupon is not applicable to this shop"
    else if p.minimumPurchase ≠ 0 ∧ cartTotal < p.minimumPurchase then
      .error "Minimum purchase required to use this coupon"
    else if p.usageLimitTotal > 0 ∧ p.currentUsage ≥ p.usageLimitTotal then
      .error "This coupon has reached its usage limit"
    else
      let step1 : Except String Rat :=
        if p.applicableProducts.isEmpty then .ok cartTotal
        else
          let applicable := products.filter
            (fun q => q.productId ∈ p.applicableProducts)
          if applicable.isEmpty then
            .error "This coupon is not applicable to any products in your cart"
          else .ok ((applicable.map (fun q => q.price * q.quantity)).sum)
      step1.map (fun applicableAmount =>
        let raw : Rat :=
          match p.discountType with
          | DiscountType.percentage => applicableAmount * p.discountValue / 100
          | DiscountType.fixed_amount => p.discountValue
          | DiscountType.free_shipping => 0
          | _ => 0
        let d := if p.maximumDiscount ≠ 0 ∧ raw > p.maximumDiscount then
          p.maximumDiscount else raw
        (d, applicableAmount))

/- ===== Cart (models/cart.model.js, cart controller) ===== -/

/-- One cart line item (subdocument id, product, shop, quantity, price
snapshot, line total, variant key). -/
structure CartItem where
  id : Nat
  product : Nat
  shop : Nat
  quantity : Rat
  price : Rat
  totalPrice : Rat
  variant : Option String
deriving DecidableEq, Repr

/-- One per-shop aggregate entry of a cart (`cart.shops`). -/
structure CartShop where
  shop : Nat
  subtotal : Rat
  tax : Rat
  deliveryFee : Rat
  packagingFee : Rat
  discount : Rat
  total : Rat
  couponCode : Option String
deriving DecidableEq, Repr

/-- One applied coupon record of a cart (`cart.coupons`). -/
structure CouponRec where
  code : String
  ctype : DiscountType
  value : Rat
  shop : Option Nat
  isGlobal : Bool
  appliedAmount : Rat
deriving DecidableEq, Repr

/-- A cart document. -/
structure Cart where
  items : List CartItem
  shops : List CartShop
  subtotal : Rat
  tax : Rat
  deliveryFee : Rat
  packagingFee : Rat
  serviceFee : Rat
  discount : Rat
  total : Rat
  coupons : List CouponRec
deriving DecidableEq, Repr

/-- The fresh cart the controller builds when none exists. -/
def emptyCart : Cart :=
  { items := []
    shops := []
    subtotal := 0
    tax := 0
    deliveryFee := 0
    packagingFee := 0
    serviceFee := 0
    discount := 0
    total := 0
    coupons := [] }

/-- The cart schema pre-save hook: recomputes every line total, rebuilds
the per-shop aggregates (grouped by first occurrence of each shop id,
keeping the fee/discount/coupon fields of an existing entry), and
recomputes the cart subtotal and the cart total as
`subtotal + tax + deliveryFee + packagingFee + serviceFee - discount`. -/
def cartPreSave (c : Cart) : Cart :=
  let items := c.items.map (fun it => { it with totalPrice := it.price * it.quantity })
  let shopIds := firstDedup (items.map (fun it => it.shop))
  let shops := shopIds.map (fun sid =>
    let shopSubtotal := ((items.filter (fun it => it.shop = sid)).map
      (fun it => it.totalPrice)).sum
    match c.shops.find? (fun s => s.shop = sid) with
    | some ex =>
        { ex with
          subtotal := shopSubtotal
          total := shopSubtotal - ex.discount + ex.tax + ex.deliveryFee + ex.packagingFee }
    | none =>
        { shop := sid
          subtotal := shopSubtotal
          tax := 0
          deliveryFee := 0
          packagingFee := 0
          discount := 0
          total := shopSubtotal
          couponCode := none })
  let subtotal := (items.map (fun it => it.totalPrice)).sum
  { c with
    items := items
    shops := shops
    subtotal := subtotal
    total := subtotal + c.tax + c.deliveryFee + c.packagingFee + c.serviceFee - c.discount }

/-- Product fields the cart handlers read (`isActive`, the shop and its
status, current stock and price). -/
structure ProductDoc where
  id : Nat
  shop : Nat
  shopActive : Bool
  isActive : Bool
  stock : Rat
  price : Rat
deriving DecidableEq, Repr

/-- `addToCart` from the cart controller: rejects a missing/inactive
product or shop, rejects whenever `product.stock < quantity`, then either
increments an existing line (clamping the combined quantity down to stock)
or appends a new line, and saves (running the pre-save recomputation).
`newItemId` models the subdocument id assigned to an appended line. -/
def addToCart (cartLookup : Option Cart) (productLookup : Option ProductDoc)
    (quantity : Rat) (variant : Option String) (newItemId : Nat) :
    Except String Cart :=
  match productLookup with
  | none => .error "Product not found"
  | some p =>
    if ¬p.isActive then .error "Product is not available"
    else if ¬p.shopActive then .error "Shop is not active"
    else if p.stock < quantity then .error "Only stock items available in stock"
    else
      let cart := cartLookup.getD emptyCart
      let cart2 :=
        if cart.items.any (fun it => it.product = p.id ∧ it.variant = variant) then
          { cart with items := cart.items.map (fun it =>
              if it.product = p.id ∧ it.variant = variant then
                let q := it.quantity + quantity
                { it with quantity := if q > p.stock then p.stock else q }
              else it) }
        else
          { cart with items := cart.items ++
              [{ id := newItemId
                 product := p.id
                 shop := p.shop
                 quantity := quantity
                 price := p.price
                 totalPrice := p.price * quantity
                 variant := variant }] }
      .ok (cartPreSave cart2)

/-- `updateCartItem` from the cart controller: finds the line by
subdocument id; when a (truthy) quantity is supplied it rejects whenever
`product.stock < quantity` and otherwise overwrites the quantity (no
clamping on this path), then saves. -/
def updateCartItem (cartLookup : Option Cart) (itemId : Nat)
    (quantity : Option Rat) (productLookup : Option ProductDoc) :
    Except String Cart :=
  match cartLookup with
  | none => .error "Cart not found"
  | some cart =>
    if ¬cart.items.any (fun it => it.id = itemId) then
      .error "Item not found in cart"
    else
      match quantity with
      | some q =>
        if q ≠ 0 then
          match productLookup with
          | none => .error "Product not found"
          | some p =>
            if p.stock < q then .error "Only stock items available in stock"
            else
              .ok (cartPreSave { cart with items := cart.items.map (fun it =>
                if it.id = itemId then
                  { it with quantity := q, totalPrice := it.price * q }
                else it) })
        else .ok (cartPreSave cart)
      | none => .ok (cartPreSave cart)

/-- `applyCoupon` from the cart controller: resolves a coupon code against
the cart, pushes a coupon record, adds the discount to the cart (and, for
a shop-scoped coupon, to that shop entry), recomputes totals and saves.
The promotion store is only read (`Promotion.findOne`); the function
passes it through unchanged because the source never writes to it. -/
def applyCoupon (promos : List Promotion) (cartLookup : Option Cart)
    (code : String) (shopId : Option Nat) (now : Int) :
    Except String (Cart × List Promotion) :=
  match cartLookup with
  | none => .error "Cart not found"
  | some cart =>
    if cart.items.isEmpty then .error "Cart is empty"
    else
      match findActivePromo promos code now with
      | none => .error "Invalid or expired coupon code"
      | some p =>
        let shopGate : Except String Unit :=
          if ¬p.isGlobal ∧ p.shop.isSome then
            match shopId with
            | none => .error "Shop ID is required for shop-specific coupons"
            | some sid =>
              if p.shop ≠ some sid then
                .error "This coupon is not applicable to this shop"
              else if ¬cart.items.any (fun it => it.shop = sid) then
                .error "No items from this shop in cart"
              else .ok ()
          else .ok ()
        shopGate.bind (fun _ =>
          let applicableAmount0 : Rat :=
            match shopId with
            | some sid =>
              if p.shop = some sid then
                ((cart.items.filter (fun it => it.shop = sid)).map
                  (fun it => it.totalPrice)).sum
              else if p.isGlobal then cart.subtotal else 0
            | none => if p.isGlobal then cart.subtotal else 0
          if p.minimumPurchase ≠ 0 ∧ applicableAmount0 < p.minimumPurchase then
            .error "Minimum purchase required to use this coupon"
          else if p.usageLimitTotal > 0 ∧ p.currentUsage ≥ p.usageLimitTotal then
            .error "This coupon has reached its usage limit"
          else
            let step1 : Except String Rat :=
              if p.applicableProducts.isEmpty then .ok applicableAmount0
              else
                let applicable := cart.items.filter
                  (fun it => it.product ∈ p.applicableProducts)
                if applicable.isEmpty then
                  .error "This coupon is not applicable to any products in your cart"
                else .ok ((applicable.map (fun it => it.totalPrice)).sum)
            step1.bind (fun applicableAmount =>
              let raw : Rat :=
                match p.discountType with
                | DiscountType.percentage => applicableAmount * p.discountValue / 100
                | DiscountType.fixed_amount => p.discountValue
                | DiscountType.free_shipping =>
                  let target : Option Nat :=
                    match shopId with
                    | some sid => some sid
                    | none => p.shop
                  match cart.shops.find? (fun s => some s.shop = target) with
                  | some s => s.deliveryFee
                  | none => 0
                | _ => 0
              let discountAmount :=
                if p.maximumDiscount ≠ 0 ∧ raw > p.maximumDiscount then
                  p.maximumDiscount else raw
              if cart.coupons.any (fun c => c.code = code) then
                .error "Coupon already applied"
              else
                let cart2 := { cart with
                  coupons := cart.coupons ++
                    [({ code := code
                        ctype := p.discountType
                        value := p.discountValue
                        shop := p.shop
                        isGlobal := p.isGlobal
                        appliedAmount := discountAmount } : CouponRec)]
                  discount := cart.discount + discountAmount }
                let cart3 := { cart2 with
                  total := cart2.subtotal + cart2.tax + cart2.deliveryFee +
                    cart2.packagingFee + cart2.serviceFee - cart2.discount }
                let cart4 :=
                  match shopId with
                  | some sid =>
                    if p.shop = some sid then
                      { cart3 with shops := cart3.shops.map (fun s =>
                          if s.shop = sid then
                            let d := s.discount + discountAmount
                            { s with
                              discount := d
                              total := s.subtotal + s.tax + s.deliveryFee +
                                s.packagingFee - d
                              couponCode := some code }
                          else s) }
                    else cart3
                  | none => cart3
                .ok (cartPreSave cart4, promos)))

/- ===== Theorems ===== -/

/-- Concrete checkout request containing items from two distinct vendors
(shop 1 and shop 2). -/
def reqC1 : CreateOrderReq :=
  { shopOrders := [
      { shop := 1
        items := [{ productId := 11, quantity := 2, price := 10 }]
        tax := none, deliveryFee := none, discount := none },
      { shop := 2
        items := [{ productId := 22, quantity := 1, price := 5 }]
        tax := none, deliveryFee := none, discount := none }]
    tax := none, deliveryFee := none, discount := none }

/-- C1 counterexample: a checkout with items from 2 distinct vendors makes
`Order.create` be called exactly once, producing 1 order document (not 2
separate Order records), and that single document contains the shop orders
of both vendors, i.e. it is a single merged cross-vendor order; no
per-vendor failure is reported. -/
theorem createOrder_crossVendor_counterexample :
    (createOrder 7 reqC1).toOption.map (fun docs => docs.length) = some 1 ∧
    (firstDedup (reqC1.shopOrders.map (fun so => so.shop))).length = 2 ∧
    (createOrder 7 reqC1).toOption.map
        (fun docs => docs.map (fun d => firstDedup (d.shopOrders.map (fun so => so.shop)))) =
      some [[1, 2]] :=
  ⟨rfl, rfl, rfl⟩

/-- C1 amended: for every checkout request with a non-empty `shopOrders`
list, `createOrder` creates exactly one order document; that document holds
one embedded shop sub-order per entry of the request (in order, with the
same shop ids), and its grand total is the sum of the sub-order totals.
It never creates one Order record per vendor. -/
theorem createOrder_single_document_per_request (customer : Nat)
    (req : CreateOrderReq) (h : req.shopOrders ≠ []) :
    ∃ doc : OrderDoc,
      createOrder customer req = .ok [doc] ∧
      doc.shopOrders.length = req.shopOrders.length ∧
      doc.shopOrders.map (fun so => so.shop) = req.shopOrders.map (fun so => so.shop) ∧
      doc.grandTotal = (doc.shopOrders.map (fun so => so.total)).sum := by
  refine ⟨{ customer := customer
            shopOrders := req.shopOrders.map (processShopOrder req)
            grandTotal := ((req.shopOrders.map (processShopOrder req)).map
              (fun so => so.total)).sum }, ?_, ?_, ?_, rfl⟩
  · unfold createOrder
    rw [if_neg]
    simp [List.isEmpty_iff, h]
  · simp
  · simp only [List.map_map]
    exact List.map_congr_left (fun a _ => rfl)

/-- C1 witness: the amended theorem applied to the concrete two-vendor
request. -/
theorem createOrder_single_document_per_request_witness :
    ∃ doc : OrderDoc,
      createOrder 7 reqC1 = .ok [doc] ∧
      doc.shopOrders.length = reqC1.shopOrders.length ∧
      doc.shopOrders.map (fun so => so.shop) = reqC1.shopOrders.map (fun so => so.shop) ∧
      doc.grandTotal = (doc.shopOrders.map (fun so => so.total)).sum :=
  createOrder_single_document_per_request 7 reqC1 (by simp [reqC1])

/-- Admin request user. -/
def adminUser : UserCtx := { id := 99, role := Role.admin, shops := [] }

/-- A stored multi-shop order whose only shop order is in the terminal
status `delivered`. -/
def orderC2 : MultiOrder :=
  { shopOrders := [{ shop := 1, status := OrderStatus.delivered }] }

/-- Shop document for the status-update scenarios. -/
def shopC2 : ShopDoc := { owner := 5, staff := [], commissionRate := none }

/-- C2 counterexample: updating the status of a shop order that is in the
terminal status `delivered` back to `pending` succeeds; it is not rejected
with InvalidTransition, contradicting the claim that every transition out
of a terminal status fails. -/
theorem updateShopOrderStatus_terminal_counterexample :
    updateShopOrderStatus adminUser shopC2 orderC2 1 OrderStatus.pending =
      .ok { shopOrders := [{ shop := 1, status := OrderStatus.pending }] } :=
  rfl

/-- First match of `find?` after `updateFirst` with a field-preserving
update. -/
theorem find?_updateFirst (p : ShopOrderRec → Bool) (f : ShopOrderRec → ShopOrderRec)
    (hf : ∀ x, p x → p (f x)) :
    ∀ l : List ShopOrderRec, (l.find? p).isSome →
      (updateFirst p f l).find? p = (l.find? p).map f := by
  intro l
  induction l with
  | nil => intro h; simp [List.find?] at h
  | cons x xs ih =>
    intro _
    by_cases hx : p x
    · simp [updateFirst, hx, List.find?_cons_of_pos _ hx,
        List.find?_cons_of_pos _ (hf x hx)]
    · have h2 : (List.find? p (x :: xs)).isSome := by assumption
      rw [List.find?_cons_of_neg _ hx] at h2
      simp [updateFirst, hx, List.find?_cons_of_neg _ hx, ih h2]

/-- C2 amended: `updateShopOrderStatus` performs no transition validation:
for every stored order, every current status of the matched shop order
(including the terminal ones), and every requested target status, the
update succeeds whenever the shop order exists and the user is an admin,
the shop owner or shop staff, and afterwards the matched shop order carries
exactly the requested status.  No transition is ever rejected as invalid. -/
theorem updateShopOrderStatus_unconditional (user : UserCtx) (shop : ShopDoc)
    (order : MultiOrder) (shopId : Nat) (status : OrderStatus)
    (hfind : (order.shopOrders.find? (fun so => so.shop = shopId)).isSome)
    (hauth : user.role = Role.admin ∨ shop.owner = user.id ∨ user.id ∈ shop.staff) :
    ∃ o2, updateShopOrderStatus user shop order shopId status = .ok o2 ∧
      (o2.shopOrders.find? (fun so => so.shop = shopId)).map (fun so => so.status) =
        some status := by
  refine ⟨{ order with
            shopOrders := updateFirst (fun so => so.shop = shopId)
              (fun so => { so with status := status }) order.shopOrders }, ?_, ?_⟩
  · unfold updateShopOrderStatus
    have h1 : ¬(order.shopOrders.find? (fun so => so.shop = shopId)).isNone := by
      simp only [Option.isNone_iff_eq_none]
      intro hnone
      rw [hnone] at hfind
      simp at hfind
    rw [if_neg h1, if_neg (not_not_intro hauth)]
  · rw [find?_updateFirst _ _ (by intro x hx; simpa using hx) _ hfind]
    obtain ⟨y, hy⟩ := Option.isSome_iff_exists.mp hfind
    simp [hy]

/-- C2 witness: the amended theorem applied to a shop order currently in
the terminal status `cancelled`, moved to `confirmed` by the shop owner. -/
theorem updateShopOrderStatus_unconditional_witness :
    ∃ o2, updateShopOrderStatus
        { id := 5, role := Role.vendor, shops := [] } shopC2
        { shopOrders := [{ shop := 3, status := OrderStatus.cancelled }] }
        3 OrderStatus.confirmed = .ok o2 ∧
      (o2.shopOrders.find? (fun so => so.shop = 3)).map (fun so => so.status) =
        some OrderStatus.confirmed :=
  updateShopOrderStatus_unconditional _ _ _ _ _ (by decide) (Or.inr (Or.inl rfl))

/-- Order for the promotion scenario: subtotal 100, delivery fee 5,
packaging fee 2, no discount, total 107; the stored invariant holds. -/
def orderC3 : Order1 :=
  { shop := 1, customer := 2
    subtotal := 100, tax := 0, deliveryFee := 5, packagingFee := 2
    serviceFee := 0, discount := 0, total := 107
    status := OrderStatus.pending, paymentStatus := OrderPayStatus.pending
    statusHistory := [], discountDetails := []
    commissionAmount := 0, shopEarnings := 0, deliveryEarnings := 0
    platformEarnings := 0 }

/-- Active global 10 percent promotion with no caps or limits. -/
def promoC3 : Promotion :=
  { code := "SAVE10", isActive := true, startDate := 0, endDate := 100
    isGlobal := true, shop := none
    discountType := DiscountType.percentage, discountValue := 10
    minimumPurchase := 0, maximumDiscount := 0
    usageLimitTotal := 0, currentUsage := 0, applicableProducts := [] }

/-- The order after `applyPromotion` recomputes the total as
`subtotal + tax + deliveryFee - discount`. -/
def orderC3after : Order1 :=
  { orderC3 with discount := 10, total := 95, discountDetails := [10] }

/-- C3 failing run: applying a 10 percent promotion to an order whose
stored monetary fields satisfy the total invariant (107 = 100 + 0 + 5 + 2 +
0 - 0) recomputes the total as `subtotal + tax + deliveryFee - discount`
= 95, dropping the packaging fee, whereas the invariant requires 97; the
mutated order violates the claimed invariant by a full 2 currency units. -/
theorem applyPromotion_drops_packagingFee :
    applyPromotion adminUser orderC3 (some promoC3) 50 =
      .ok (orderC3after, { promoC3 with currentUsage := 1 }) ∧
    orderTotalInvariant orderC3 ∧
    orderC3after.subtotal + orderC3after.tax + orderC3after.deliveryFee +
      orderC3after.packagingFee + orderC3after.serviceFee - orderC3after.discount = 97 ∧
    orderC3after.total = 95 ∧
    ¬orderTotalInvariant orderC3after := by
  refine ⟨?_, ?_, ?_, ?_, ?_⟩
  · simp only [applyPromotion, orderActionAllowed, adminUser, orderC3, promoC3, orderC3after]
    norm_num
  · simp only [orderTotalInvariant, orderC3]
    norm_num
  · simp only [orderC3after, orderC3]
    norm_num
  · rfl
  · simp only [orderTotalInvariant, orderC3after, orderC3]
    norm_num

/-- Shop with a stored 10 percent commission rate. -/
def shopC4 : ShopDoc := { owner := 1, staff := [], commissionRate := some 10 }

/-- Freshly created order: total 100, delivery earnings 5, commission not
yet computed. -/
def orderC4 : Order1 :=
  { shop := 1, customer := 2
    subtotal := 95, tax := 0, deliveryFee := 5, packagingFee := 0
    serviceFee := 0, discount := 0, total := 100
    status := OrderStatus.pending, paymentStatus := OrderPayStatus.pending
    statusHistory := [], discountDetails := []
    commissionAmount := 0, shopEarnings := 0, deliveryEarnings := 5
    platformEarnings := 0 }

/-- The order after the pre-save settlement hook runs. -/
def orderC4saved : Order1 := orderPreSave (some shopC4) orderC4

/-- C4 counterexample: for an order with total 100, commission rate 10
percent and delivery earnings 5, the saved order carries commissionAmount
10 and vendor earnings 85, but the payment created for it carries
shopAmount 90 = total - platformFee: the payment does NOT carry the same
platform-fee/vendor-amount split as the order. -/
theorem createPayment_split_mismatch_counterexample :
    orderC4saved.commissionAmount = 10 ∧
    orderC4saved.shopEarnings = 85 ∧
    orderC4saved.deliveryEarnings = 5 ∧
    (createPayment (some shopC4) orderC4saved).map (fun pay => pay.platformFee) = some 10 ∧
    (createPayment (some shopC4) orderC4saved).map (fun pay => pay.shopAmount) = some 90 ∧
    (createPayment (some shopC4) orderC4saved).map (fun pay => pay.shopAmount) ≠
      some orderC4saved.shopEarnings := by
  refine ⟨?_, ?_, ?_, ?_, ?_, ?_⟩ <;>
    simp only [orderC4saved, orderPreSave, createPayment, paymentRate, jsOr,
      shopC4, orderC4, Option.map_some] <;> norm_num

/-- C4 amended: at creation the pre-save hook computes `commissionAmount =
total * rate / 100` (with the vendor-specific rate), `vendorEarnings =
total - commissionAmount - deliveryEarnings` and `platformEarnings =
commissionAmount`, so `commissionAmount + vendorEarnings + deliveryEarnings
= total`; the payment later created computes its platformFee with the same
formula but sets `shopAmount = total - platformFee`, which equals the order
vendor earnings PLUS the delivery earnings (so the splits agree only when
deliveryEarnings = 0). -/
theorem orderPreSave_commission_split (s : ShopDoc) (o : Order1) (r : Rat)
    (h0 : o.commissionAmount = 0) (hr : s.commissionRate = some r) (hrne : r ≠ 0) :
    (orderPreSave (some s) o).commissionAmount = o.total * r / 100 ∧
    (orderPreSave (some s) o).shopEarnings =
      o.total - (orderPreSave (some s) o).commissionAmount - o.deliveryEarnings ∧
    (orderPreSave (some s) o).platformEarnings =
      (orderPreSave (some s) o).commissionAmount ∧
    (orderPreSave (some s) o).commissionAmount + (orderPreSave (some s) o).shopEarnings +
      (orderPreSave (some s) o).deliveryEarnings = o.total ∧
    ∃ pay, createPayment (some s) (orderPreSave (some s) o) = some pay ∧
      pay.platformFee = (orderPreSave (some s) o).commissionAmount ∧
      pay.shopAmount = (orderPreSave (some s) o).shopEarnings +
        (orderPreSave (some s) o).deliveryEarnings := by
  have hpre : orderPreSave (some s) o =
      { o with
        commissionAmount := o.total * r / 100
        shopEarnings := o.total - o.total * r / 100 - o.deliveryEarnings
        platformEarnings := o.total * r / 100 } := by
    simp [orderPreSave, h0, hr, jsOr, hrne]
  have hcp : createPayment (some s) (orderPreSave (some s) o) = some
      { order := 0
        customer := (orderPreSave (some s) o).customer
        shop := (orderPreSave (some s) o).shop
        amount := (orderPreSave (some s) o).total
        status := PaymentStatus.pending
        platformFee := (orderPreSave (some s) o).total * r / 100
        shopAmount := (orderPreSave (some s) o).total -
          (orderPreSave (some s) o).total * r / 100
        refunds := [] } := by
    simp only [createPayment, paymentRate, hr]
    rfl
  refine ⟨?_, ?_, ?_, ?_, ?_⟩
  · rw [hpre]
  · rw [hpre]
  · rw [hpre]
  · rw [hpre]
    show o.total * r / 100 + (o.total - o.total * r / 100 - o.deliveryEarnings) +
      o.deliveryEarnings = o.total
    ring
  · refine ⟨_, hcp, ?_, ?_⟩
    · rw [hpre]
    · rw [hpre]
      show o.total - o.total * r / 100 =
        o.total - o.total * r / 100 - o.deliveryEarnings + o.deliveryEarnings
      ring

/-- C4 witness: the amended theorem applied to the concrete order with
total 100, rate 10 and delivery earnings 5. -/
theorem orderPreSave_commission_split_witness :
    (orderPreSave (some shopC4) orderC4).commissionAmount = orderC4.total * 10 / 100 ∧
    (orderPreSave (some shopC4) orderC4).shopEarnings =
      orderC4.total - (orderPreSave (some shopC4) orderC4).commissionAmount -
        orderC4.deliveryEarnings ∧
    (orderPreSave (some shopC4) orderC4).platformEarnings =
      (orderPreSave (some shopC4) orderC4).commissionAmount ∧
    (orderPreSave (some shopC4) orderC4).commissionAmount +
      (orderPreSave (some shopC4) orderC4).shopEarnings +
      (orderPreSave (some shopC4) orderC4).deliveryEarnings = orderC4.total ∧
    ∃ pay, createPayment (some shopC4) (orderPreSave (some shopC4) orderC4) = some pay ∧
      pay.platformFee = (orderPreSave (some shopC4) orderC4).commissionAmount ∧
      pay.shopAmount = (orderPreSave (some shopC4) orderC4).shopEarnings +
        (orderPreSave (some shopC4) orderC4).deliveryEarnings :=
  orderPreSave_commission_split shopC4 orderC4 10 rfl rfl (by norm_num)

/-- Payment already partially refunded: original amount 20, one recorded
refund of 5, so 15 remains refundable. -/
def payC5 : PaymentDoc :=
  { order := 1, customer := 2, shop := 1, amount := 20
    status := PaymentStatus.partially_refunded
    platformFee := 2, shopAmount := 18
    refunds := [{ amount := 5, reason := "damaged" }] }

/-- A paid, confirmed order used by the refund scenarios. -/
def orderC56 : Order1 :=
  { shop := 1, customer := 2
    subtotal := 20, tax := 0, deliveryFee := 0, packagingFee := 0
    serviceFee := 0, discount := 0, total := 20
    status := OrderStatus.confirmed, paymentStatus := OrderPayStatus.paid
    statusHistory := [], discountDetails := []
    commissionAmount := 2, shopEarnings := 18, deliveryEarnings := 0
    platformEarnings := 2 }

/-- C5 counterexample: a refund request of 5 against a payment in state
`partially_refunded` with 15 still refundable is rejected by the code
("Only completed payments can be refunded"), although the claim says a
payment in `completed` or `partially_refunded` state with
0 < amount <= remaining must be accepted. -/
theorem refundPayment_partiallyRefunded_rejected :
    (0 : Rat) < 5 ∧
    (5 : Rat) ≤ payC5.amount - (payC5.refunds.map (fun rr => rr.amount)).sum ∧
    refundPayment adminUser payC5 orderC56 (some 5) "item missing" =
      .error "Only completed payments can be refunded" := by
  refine ⟨by norm_num, ?_, rfl⟩
  show (5 : Rat) ≤ 20 - ([(5 : Rat)]).sum
  norm_num

/-- C5 amended: for an admin request, `refundPayment` accepts a refund if
and only if the payment status is exactly `completed` (a
`partially_refunded` payment is always rejected) and the amount satisfies
0 < amount <= the ORIGINAL payment amount; already-recorded refunds are not
subtracted.  Every rejected request returns an error and leaves the payment
and the order unchanged. -/
theorem refundPayment_accept_iff (user : UserCtx) (p : PaymentDoc) (o : Order1)
    (v : Rat) (reason : String) (hadmin : user.role = Role.admin) :
    (∃ res, refundPayment user p o (some v) reason = .ok res) ↔
      (p.status = PaymentStatus.completed ∧ 0 < v ∧ v ≤ p.amount) := by
  constructor
  · rintro ⟨res, hres⟩
    by_cases hst : p.status = PaymentStatus.completed
    · by_cases hamt : v ≤ 0 ∨ v > p.amount
      · simp [refundPayment, hst, hadmin, hamt] at hres
      · push_neg at hamt
        exact ⟨hst, hamt.1, hamt.2⟩
    · simp [refundPayment, hst] at hres
  · rintro ⟨hst, hpos, hle⟩
    refine ⟨({ p with
        refunds := p.refunds ++ [{ amount := v, reason := reason }]
        status := if v = p.amount then PaymentStatus.refunded
          else PaymentStatus.partially_refunded },
      if v = p.amount then
        { o with
          paymentStatus := OrderPayStatus.refunded
          status := OrderStatus.refunded
          statusHistory := o.statusHistory ++ [OrderStatus.refunded] }
      else
        { o with
          paymentStatus := OrderPayStatus.partially_refunded
          statusHistory := o.statusHistory ++ [o.status] }), ?_⟩
    simp [refundPayment, hst, hadmin, not_le.mpr hpos, not_lt.mpr hle]

/-- C5 witness: the amended acceptance condition instantiated at a
completed 20-unit payment and a 5-unit refund. -/
theorem refundPayment_accept_iff_witness :
    ∃ res, refundPayment adminUser { payC5 with status := PaymentStatus.completed }
      orderC56 (some 5) "item missing" = .ok res :=
  (refundPayment_accept_iff adminUser { payC5 with status := PaymentStatus.completed }
    orderC56 5 "item missing" rfl).mpr ⟨rfl, by norm_num, by show (5:Rat) ≤ 20; norm_num⟩

/-- C6: for an accepted refund on a completed payment, a partial refund
(0 < amount < original) sets the payment to `partially_refunded`, leaves
the order fulfillment status unchanged (only appending a history entry
carrying the current status) and sets the order payment status to
`partially_refunded`; a full refund (amount = original) sets the payment to
`refunded` and drives the order status and payment status to `refunded`. -/
theorem refundPayment_partial_vs_full (user : UserCtx) (p : PaymentDoc)
    (o : Order1) (v : Rat) (reason : String)
    (hadmin : user.role = Role.admin) (hst : p.status = PaymentStatus.completed) :
    (0 < v → v < p.amount →
      ∃ p2 o2, refundPayment user p o (some v) reason = .ok (p2, o2) ∧
        p2.status = PaymentStatus.partially_refunded ∧
        o2.status = o.status ∧
        o2.paymentStatus = OrderPayStatus.partially_refunded ∧
        p2.refunds = p.refunds ++ [{ amount := v, reason := reason }]) ∧
    (0 < p.amount →
      ∃ p2 o2, refundPayment user p o (some p.amount) reason = .ok (p2, o2) ∧
        p2.status = PaymentStatus.refunded ∧
        o2.status = OrderStatus.refunded ∧
        o2.paymentStatus = OrderPayStatus.refunded) := by
  constructor
  · intro hpos hlt
    have hne : v ≠ p.amount := ne_of_lt hlt
    refine ⟨{ p with
        refunds := p.refunds ++ [{ amount := v, reason := reason }]
        status := PaymentStatus.partially_refunded },
      { o with
        paymentStatus := OrderPayStatus.partially_refunded
        statusHistory := o.statusHistory ++ [o.status] }, ?_, rfl, rfl, rfl, rfl⟩
    simp [refundPayment, hst, hadmin, not_le.mpr hpos, not_lt.mpr (le_of_lt hlt), hne]
  · intro hpos
    refine ⟨{ p with
        refunds := p.refunds ++ [{ amount := p.amount, reason := reason }]
        status := PaymentStatus.refunded },
      { o with
        paymentStatus := OrderPayStatus.refunded
        status := OrderStatus.refunded
        statusHistory := o.statusHistory ++ [OrderStatus.refunded] }, ?_, rfl, rfl, rfl⟩
    simp [refundPayment, hst, hadmin, not_le.mpr hpos]

/-- C6 witness: a 5-unit partial refund and a 20-unit full refund of a
completed 20-unit payment, instantiating the theorem. -/
theorem refundPayment_partial_vs_full_witness :
    (∃ p2 o2, refundPayment adminUser
        { payC5 with status := PaymentStatus.completed } orderC56 (some 5) "late" =
          .ok (p2, o2) ∧
        p2.status = PaymentStatus.partially_refunded ∧
        o2.status = orderC56.status ∧
        o2.paymentStatus = OrderPayStatus.partially_refunded ∧
        p2.refunds = { payC5 with status := PaymentStatus.completed }.refunds ++
          [{ amount := 5, reason := "late" }]) ∧
    (∃ p2 o2, refundPayment adminUser
        { payC5 with status := PaymentStatus.completed } orderC56
          (some { payC5 with status := PaymentStatus.completed }.amount) "late" =
          .ok (p2, o2) ∧
        p2.status = PaymentStatus.refunded ∧
        o2.status = OrderStatus.refunded ∧
        o2.paymentStatus = OrderPayStatus.refunded) := by
  have h := refundPayment_partial_vs_full adminUser
    { payC5 with status := PaymentStatus.completed } orderC56 5 "late" rfl rfl
  exact ⟨h.1 (by norm_num) (by show (5:Rat) < 20; norm_num),
    h.2 (by show (0:Rat) < 20; norm_num)⟩

/-- Appending one entry extends the running signed sum. -/
theorem ledgerSum_append_singleton (l : List Txn) (t : Txn) :
    ledgerSum (l ++ [t]) = ledgerSum l + signedAmount t := by
  simp [ledgerSum]

/-- An `addTransaction` call without a `description` never persists: the
pushed entry violates the schema-required `description`, so the save is
rejected. -/
theorem addTransaction_requires_description (w : Wallet) (ty : TxnType)
    (amount : Rat) (res : Wallet × Txn) :
    addTransaction w ty amount none ≠ .ok res := by
  intro hok
  simp [addTransaction, saveTxn] at hok
  repeat' split at hok
  all_goals try exact Except.noConfusion hok
  all_goals
    rename_i hv
    have hbad :=
      (hv.2 _ (List.mem_append_right w.transactions (List.mem_singleton_self _))).1
    simp at hbad

/-- C7: over persisted wallet state the claimed invariants hold.  Whenever
`addTransaction` persists an update from a wallet whose balance equals the
running signed ledger sum, the new wallet again satisfies balance =
running signed sum, the balance is nonnegative (the schema floor), and the
ledger only grew by the one entry; a debit or withdrawal whose amount
exceeds the current balance throws the insufficient-balance error before
touching anything; the controller withdrawal likewise rejects an amount
above the balance with the insufficient-balance error; and in fact every
controller withdrawal ends in an error (its pushed entry lacks the
schema-required description), so no wallet operation ever persists a
negative balance or a balance out of step with its ledger. -/
theorem wallet_balance_invariant :
    (∀ (w : Wallet) (ty : TxnType) (amount : Rat) (description : Option String)
        (w2 : Wallet) (t : Txn),
      w.balance = ledgerSum w.transactions →
      addTransaction w ty amount description = .ok (w2, t) →
      w2.transactions = w.transactions ++ [t] ∧
        w2.balance = ledgerSum w2.transactions ∧ 0 ≤ w2.balance) ∧
    (∀ (w : Wallet) (ty : TxnType) (amount : Rat) (description : Option String),
      (ty = TxnType.debit ∨ ty = TxnType.withdrawal) → amount > w.balance →
      addTransaction w ty amount description = .error "Insufficient balance") ∧
    (∀ (w : Wallet) (a : Rat) (method accountDetails : Option String),
      0 < a → w.balance < a →
      withdrawFunds (some w) (some a) method accountDetails =
        .error "Insufficient balance") ∧
    (∀ (w : Wallet) (a : Rat) (method accountDetails : Option String),
      ∃ msg, withdrawFunds (some w) (some a) method accountDetails =
        .error msg) := by
  refine ⟨?_, ?_, ?_, ?_⟩
  · intro w ty amount description w2 t hinv hok
    cases ty <;>
      (simp [addTransaction, saveTxn] at hok
       repeat' split at hok
       all_goals try exact Except.noConfusion hok
       all_goals
         (rename_i hv
          simp only [Except.ok.injEq, Prod.mk.injEq] at hok
          obtain ⟨hw2, ht⟩ := hok
          subst hw2
          subst ht
          refine ⟨rfl, ?_, hv.1⟩
          rw [ledgerSum_append_singleton, ← hinv]
          simp [signedAmount]
          try ring))
  · intro w ty amount description hty hgt
    rcases hty with h | h <;> subst h <;> simp [addTransaction, hgt]
  · intro w a method accountDetails hpos hlt
    simp [withdrawFunds, not_le.mpr hpos, hlt]
  · intro w a method accountDetails
    by_cases hpos : a ≤ 0
    · exact ⟨"Amount must be greater than 0", by simp [withdrawFunds, hpos]⟩
    · by_cases hbal : w.balance < a
      · exact ⟨"Insufficient balance", by simp [withdrawFunds, hpos, hbal]⟩
      · cases method with
        | none =>
          exact ⟨"Withdrawal method is required",
            by simp [withdrawFunds, hpos, hbal]⟩
        | some m =>
          cases accountDetails with
          | none =>
            exact ⟨"Account details are required",
              by simp [withdrawFunds, hpos, hbal]⟩
          | some d =>
            rcases hres : addTransaction w TxnType.withdrawal (-a) none with
              msg | pr
            · exact ⟨msg, by simp [withdrawFunds, hpos, hbal, hres, Except.map]⟩
            · exact absurd hres (addTransaction_requires_description w _ _ pr)

/-- Wallet funded by a single persisted 100 credit. -/
def walletC7 : Wallet :=
  { balance := 100
    transactions := [{ ty := TxnType.credit, amount := 100
                       description := some "deposit", balanceAfter := 100 }] }

/-- The ledger entry a 20 credit with a description appends to it. -/
def txnC7b : Txn :=
  { ty := TxnType.credit, amount := 20, description := some "topup"
    balanceAfter := 120 }

/-- The wallet after that credit persists. -/
def walletC7b : Wallet :=
  { balance := 120, transactions := walletC7.transactions ++ [txnC7b] }

/-- C7 witness: the invariants applied to a wallet holding 100: a
described 20 credit persists and preserves balance = signed ledger sum
with a nonnegative balance; a 150 debit and a 150 controller withdrawal
are rejected with the insufficient-balance error; and a 50 controller
withdrawal also ends in an error, leaving the wallet unchanged. -/
theorem wallet_balance_invariant_witness :
    (walletC7b.transactions = walletC7.transactions ++ [txnC7b] ∧
      walletC7b.balance = ledgerSum walletC7b.transactions ∧
      0 ≤ walletC7b.balance) ∧
    addTransaction walletC7 TxnType.debit 150 (some "purchase") =
      .error "Insufficient balance" ∧
    withdrawFunds (some walletC7) (some 150) (some "bank_transfer")
      (some "acct-1") = .error "Insufficient balance" ∧
    (∃ msg, withdrawFunds (some walletC7) (some 50) (some "bank_transfer")
      (some "acct-1") = .error msg) := by
  refine ⟨?_, ?_, ?_, ?_⟩
  · refine wallet_balance_invariant.1 walletC7 TxnType.credit 20 (some "topup")
      walletC7b txnC7b ?_ ?_
    · show (100 : Rat) = ledgerSum walletC7.transactions
      simp [walletC7, ledgerSum, signedAmount]
    · norm_num [addTransaction, saveTxn, walletDocValid, txnTypeInEnum,
        walletC7, walletC7b, txnC7b]
  · exact wallet_balance_invariant.2.1 walletC7 TxnType.debit 150
      (some "purchase") (Or.inl rfl) (by show (150 : Rat) > 100; norm_num)
  · exact wallet_balance_invariant.2.2.1 walletC7 150 (some "bank_transfer")
      (some "acct-1") (by norm_num) (by show (100 : Rat) < 150; norm_num)
  · exact wallet_balance_invariant.2.2.2 walletC7 50 (some "bank_transfer")
      (some "acct-1")

/-- Active global free-delivery coupon. -/
def promoC8 : Promotion :=
  { code := "FREESHIP", isActive := true, startDate := 0, endDate := 100
    isGlobal := true, shop := none
    discountType := DiscountType.free_shipping, discountValue := 0
    minimumPurchase := 0, maximumDiscount := 0
    usageLimitTotal := 0, currentUsage := 0, applicableProducts := [] }

/-- C8 counterexample: resolving a valid free-delivery coupon against a
cart with total 50 yields a resolved discount of 0, not the vendor delivery
fee: for any nonzero delivery fee (for instance 5) the claim fails, since
`validateCoupon` hardcodes 0 for `free_shipping` coupons. -/
theorem validateCoupon_freeDelivery_zero :
    validateCoupon [promoC8] "FREESHIP" (some 1) 50
      [{ productId := 3, price := 25, quantity := 2 }] 10 = .ok (0, 50) ∧
    (0 : Rat) ≠ 5 := by
  refine ⟨?_, by norm_num⟩
  simp [validateCoupon, findActivePromo, promoC8]
  rfl

/-- The discount the resolver computes before the maximum-discount clamp,
written out per discount type (percentage of the applicable amount, the
fixed amount, 0 for every other type including free delivery). -/
def rawDiscount (p : Promotion) (applicableAmount : Rat) : Rat :=
  match p.discountType with
  | DiscountType.percentage => applicableAmount * p.discountValue / 100
  | DiscountType.fixed_amount => p.discountValue
  | _ => 0

/-- The inline discount computation of `validateCoupon` agrees with
`rawDiscount`. -/
theorem rawDiscount_eq (p : Promotion) (x : Rat) :
    (match p.discountType with
      | DiscountType.percentage => x * p.discountValue / 100
      | DiscountType.fixed_amount => p.discountValue
      | DiscountType.free_shipping => 0
      | _ => 0) = rawDiscount p x := by
  unfold rawDiscount
  cases p.discountType <;> rfl

/-- C8 amended: whenever `validateCoupon` succeeds for a matched promotion,
the resolved discount equals `rawDiscount` (percentage x applicable amount,
or the fixed amount, or 0 for free-delivery and every other type) clamped
to `maximumDiscount` whenever that cap is nonzero and exceeded; and the
resolved discount is nonnegative provided the discount value, the
applicable amount and the cap are nonnegative. -/
theorem validateCoupon_discount_characterization (promos : List Promotion)
    (code : String) (shopId : Option Nat) (cartTotal : Rat)
    (products : List CartProduct) (now : Int) (p : Promotion) (d aa : Rat)
    (hfind : findActivePromo promos code now = some p)
    (hok : validateCoupon promos code shopId cartTotal products now = .ok (d, aa)) :
    d = (if p.maximumDiscount ≠ 0 ∧ rawDiscount p aa > p.maximumDiscount
        then p.maximumDiscount else rawDiscount p aa) ∧
    (0 ≤ p.discountValue → 0 ≤ aa → 0 ≤ p.maximumDiscount → 0 ≤ d) := by
  have hmain : d = (if p.maximumDiscount ≠ 0 ∧ rawDiscount p aa > p.maximumDiscount
      then p.maximumDiscount else rawDiscount p aa) := by
    simp only [validateCoupon, hfind] at hok
    split_ifs at hok
    all_goals simp only [Except.map] at hok
    all_goals first
      | exact Except.noConfusion hok
      | (simp only [Except.ok.injEq, Prod.mk.injEq] at hok
         obtain ⟨hd, haa⟩ := hok
         subst haa
         rw [rawDiscount_eq] at hd
         exact hd.symm)
  refine ⟨hmain, fun hdv haa hmax => ?_⟩
  rw [hmain]
  split_ifs with hc
  · exact hmax
  · unfold rawDiscount
    cases p.discountType
    · positivity
    · exact hdv
    · exact le_refl 0
    · exact le_refl 0
    · exact le_refl 0

/-- Active global fixed-amount coupon worth 7. -/
def promoW8 : Promotion :=
  { code := "FLAT7", isActive := true, startDate := 0, endDate := 100
    isGlobal := true, shop := none
    discountType := DiscountType.fixed_amount, discountValue := 7
    minimumPurchase := 0, maximumDiscount := 0
    usageLimitTotal := 0, currentUsage := 0, applicableProducts := [] }

/-- C8 witness: the characterization applied to a concrete successful
resolution of a fixed-amount coupon against a cart total of 50. -/
theorem validateCoupon_discount_characterization_witness :
    (7 : Rat) = (if promoW8.maximumDiscount ≠ 0 ∧
        rawDiscount promoW8 50 > promoW8.maximumDiscount
        then promoW8.maximumDiscount else rawDiscount promoW8 50) ∧
    (0 ≤ promoW8.discountValue → 0 ≤ (50 : Rat) → 0 ≤ promoW8.maximumDiscount →
      0 ≤ (7 : Rat)) :=
  validateCoupon_discount_characterization [promoW8] "FLAT7" (some 1) 50 [] 10
    promoW8 7 50 rfl rfl

/-- Product with positive stock 5. -/
def productC9 : ProductDoc :=
  { id := 4, shop := 1, shopActive := true, isActive := true, stock := 5, price := 3 }

/-- C9 counterexample: adding quantity 6 of a product whose stock is the
positive value 5 to a fresh cart is REJECTED with the stock error; the
claim says such a request must succeed with the quantity clamped down to
5, and must never be rejected merely because the quantity exceeds a
positive stock level. -/
theorem addToCart_excess_quantity_rejected :
    (0 : Rat) < productC9.stock ∧ productC9.stock < 6 ∧
    addToCart none (some productC9) 6 none 1 =
      .error "Only stock items available in stock" := by
  refine ⟨?_, ?_, ?_⟩
  · show (0 : Rat) < 5
    norm_num
  · show (5 : Rat) < 6
    norm_num
  · simp only [addToCart, productC9]
    norm_num

/-- C9 amended: both cart mutation handlers REJECT any request whose
quantity exceeds the available stock (whether the stock is zero or
positive); clamping to stock happens only in `addToCart` when the product
is already in the cart with the same variant and the incoming increment
itself passes the stock check, in which case the combined quantity is
clamped down to the stock; `updateCartItem` never clamps. -/
theorem cart_quantity_stock_policy :
    (∀ (cartLookup : Option Cart) (p : ProductDoc) (q : Rat)
        (variant : Option String) (nid : Nat),
      p.isActive → p.shopActive → p.stock < q →
      addToCart cartLookup (some p) q variant nid =
        .error "Only stock items available in stock") ∧
    (∀ (cart : Cart) (it : CartItem) (p : ProductDoc) (q : Rat)
        (variant : Option String) (nid : Nat),
      p.isActive → p.shopActive → q ≤ p.stock →
      cart.items = [it] → it.product = p.id → it.variant = variant →
      ∃ c2, addToCart (some cart) (some p) q variant nid = .ok c2 ∧
        c2.items.map (fun j => j.quantity) =
          [if it.quantity + q > p.stock then p.stock else it.quantity + q]) ∧
    (∀ (cart : Cart) (itemId : Nat) (q : Rat) (p : ProductDoc),
      q ≠ 0 → cart.items.any (fun it => it.id = itemId) → p.stock < q →
      updateCartItem (some cart) itemId (some q) (some p) =
        .error "Only stock items available in stock") := by
  refine ⟨?_, ?_, ?_⟩
  · intro cartLookup p q variant nid hact hshop hstock
    simp only [addToCart]
    rw [if_neg (by simp [hact]), if_neg (by simp [hshop]), if_pos hstock]
  · intro cart it p q variant nid hact hshop hq hitems hprod hvar
    have hmain : addToCart (some cart) (some p) q variant nid =
        .ok (cartPreSave { cart with items := [{ it with
          quantity := if it.quantity + q > p.stock then p.stock
            else it.quantity + q }] }) := by
      simp only [addToCart]
      rw [if_neg (by simp [hact]), if_neg (by simp [hshop]),
        if_neg (not_lt.mpr hq)]
      rw [if_pos (by simp [hitems, hprod, hvar])]
      simp [hitems, hprod, hvar]
    refine ⟨_, hmain, ?_⟩
    simp [cartPreSave]
  · intro cart itemId q p hqne hfound hstock
    simp only [updateCartItem]
    rw [if_neg (by simp_all), if_pos hqne, if_pos hstock]

/-- Cart line holding 4 units of product 4 at price 3. -/
def itemC9 : CartItem :=
  { id := 1
    product := 4
    shop := 1
    quantity := 4
    price := 3
    totalPrice := 12
    variant := none }

/-- Cart already holding `itemC9`. -/
def cartC9 : Cart := { emptyCart with items := [itemC9] }

/-- C9 witness: the amended policy applied to concrete requests: a fresh
add of 6 with stock 5 is rejected; adding 2 more of an item already in the
cart with quantity 4 and stock 5 succeeds with the quantity clamped to 5;
an update to quantity 6 with stock 5 is rejected. -/
theorem cart_quantity_stock_policy_witness :
    addToCart (some emptyCart) (some productC9) 6 none 2 =
      .error "Only stock items available in stock" ∧
    (∃ c2, addToCart (some cartC9) (some productC9) 2 none 2 = .ok c2 ∧
      c2.items.map (fun j => j.quantity) = [if (4 : Rat) + 2 > productC9.stock
        then productC9.stock else 4 + 2]) ∧
    updateCartItem (some cartC9) 1 (some 6) (some productC9) =
      .error "Only stock items available in stock" := by
  refine ⟨?_, ?_, ?_⟩
  · exact cart_quantity_stock_policy.1 (some emptyCart) productC9 6 none 2
      rfl rfl (by show (5 : Rat) < 6; norm_num)
  · exact cart_quantity_stock_policy.2.1 cartC9 itemC9 productC9 2 none 2
      rfl rfl (by show (2 : Rat) ≤ 5; norm_num) rfl rfl rfl
  · exact cart_quantity_stock_policy.2.2 cartC9 1 6 productC9 (by norm_num)
      (by simp [cartC9, itemC9]) (by show (5 : Rat) < 6; norm_num)

/-- C10: applying a coupon to a cart never touches the promotion store
(the coupon resolver only reads `Promotion.findOne`): whenever the
cart-level `applyCoupon` returns, the promotion list — and in particular
every `currentUsage` counter — is exactly the input one; the counter is
incremented (by exactly 1) only by the order-level `applyPromotion`. -/
theorem applyCoupon_never_increments_usage :
    (∀ (promos : List Promotion) (cartLookup : Option Cart) (code : String)
        (shopId : Option Nat) (now : Int) (c2 : Cart) (ps2 : List Promotion),
      applyCoupon promos cartLookup code shopId now = .ok (c2, ps2) →
      ps2 = promos ∧
        ps2.map (fun p => p.currentUsage) = promos.map (fun p => p.currentUsage)) ∧
    (∀ (user : UserCtx) (order : Order1) (p : Promotion) (now : Int)
        (o2 : Order1) (p2 : Promotion),
      applyPromotion user order (some p) now = .ok (o2, p2) →
      p2.currentUsage = p.currentUsage + 1) := by
  constructor
  · intro promos cartLookup code shopId now c2 ps2 hok
    have heq : ps2 = promos := by
      simp only [applyCoupon, Except.bind] at hok
      repeat' split at hok
      all_goals try exact Except.noConfusion hok
      all_goals
        simp only [Except.ok.injEq, Prod.mk.injEq] at hok
        exact hok.2.symm
    exact ⟨heq, by rw [heq]⟩
  · intro user order p now o2 p2 hok
    simp only [applyPromotion] at hok
    repeat' split at hok
    all_goals try exact Except.noConfusion hok
    all_goals
      simp only [Except.ok.injEq, Prod.mk.injEq] at hok
      rw [← hok.2]

/-- C10 witness: a concrete successful coupon application (global
fixed-amount coupon on a one-item cart) leaves the promotion list intact,
and a concrete successful order-level promotion application increments the
usage counter, both via the theorem. -/
theorem applyCoupon_never_increments_usage_witness :
    ∃ c2 ps2 o2 p2,
      applyCoupon [promoW8] (some cartC9) "FLAT7" none 10 = .ok (c2, ps2) ∧
      ps2 = [promoW8] ∧
      applyPromotion adminUser orderC56 (some promoW8) 10 = .ok (o2, p2) ∧
      p2.currentUsage = promoW8.currentUsage + 1 := by
  have hsnd : (applyCoupon [promoW8] (some cartC9) "FLAT7" none 10).map
      (fun r => r.2) = .ok [promoW8] := rfl
  have hsnd2 : (applyPromotion adminUser orderC56 (some promoW8) 10).map
      (fun r => r.2) = .ok { promoW8 with currentUsage := promoW8.currentUsage + 1 } :=
    rfl
  rcases hc : applyCoupon [promoW8] (some cartC9) "FLAT7" none 10 with msg | pr
  · rw [hc] at hsnd
    simp only [Except.map] at hsnd
    exact Except.noConfusion hsnd
  · rcases hc2 : applyPromotion adminUser orderC56 (some promoW8) 10 with msg2 | pr2
    · rw [hc2] at hsnd2
      simp only [Except.map] at hsnd2
      exact Except.noConfusion hsnd2
    · refine ⟨pr.1, pr.2, pr2.1, pr2.2, rfl, ?_, rfl, ?_⟩
      · exact (applyCoupon_never_increments_usage.1 _ _ _ _ _ _ _ hc).1
      · exact applyCoupon_never_increments_usage.2 _ _ _ _ _ _ hc2
